import Mathlib

/-!
Verification of the topic-key core of the gossipsub fragment
(`src/gossipsub/src/topic.rs`): the `Hasher` strategy trait, the
`IdentityHash` and `Sha256Hash` strategies, the `TopicHash` value type and
the `Topic` wrapper. Rust strings are modelled as their UTF-8 byte
sequences (`List Nat`, each entry a byte); machine words are `Nat` with
explicit reduction modulo `2 ^ 32` where the source wraps.
-/

/-- A Rust `String`, modelled as its UTF-8 byte sequence. -/
abbrev RustString := List Nat

/-- The `TopicHash` struct of `topic.rs`: a wrapper around a single string
field `hash` ("Stored as a string to align with the protobuf API"). -/
structure TopicHash where
  hash : RustString
deriving DecidableEq, Repr

/-- `TopicHash::from_raw`: wrap an arbitrary string; no validation is
performed. -/
def TopicHash.from_raw (s : RustString) : TopicHash :=
  ⟨s⟩

/-- `TopicHash::into_string`: read back the underlying string. -/
def TopicHash.into_string (t : TopicHash) : RustString :=
  t.hash

/-- Strict byte-lexicographic comparison of strings: Rust's `Ord` for
`String` compares the underlying byte sequences lexicographically. -/
def bytesLt : RustString → RustString → Bool
  | _, [] => false
  | [], _ :: _ => true
  | x :: xs, y :: ys => if x < y then true else if y < x then false else bytesLt xs ys

/-- The derived `Ord` on `TopicHash` compares the single `hash` field, so
it is the byte-lexicographic comparison of the wrapped strings. -/
def TopicHash.lt (x y : TopicHash) : Bool :=
  bytesLt x.hash y.hash

/-- `Display` for `TopicHash` prints the wrapped string. -/
def TopicHash.displayString (t : TopicHash) : RustString :=
  t.hash

/-- The `IdentityHash` strategy type (a unit struct). -/
structure IdentityHash

/-- `IdentityHash::hash`: creates a `TopicHash` as a raw string. -/
def IdentityHash.hash (topic_string : RustString) : TopicHash :=
  ⟨topic_string⟩

/-- Error channel of the protobuf writer, mirroring quick_protobuf's
`Result`. The `Vec`-backed byte sink used by `Sha256Hash::hash` has no
failing primitive, but the error type exists at the API level. -/
inductive EncodeError where
  | backendFailure
deriving DecidableEq

/-- Modelled from the spec: the `proto::TopicDescriptor` envelope is
generated protobuf code of this repository that is not under `src/` (the
canonical encoder of spec §4.1). The name is a protobuf `string` field
number 1; `auth` and `enc` are the two reserved extension fields (numbers
2 and 3) that this core never populates. -/
structure TopicDescriptor where
  name : Option RustString
  auth : Option Unit
  enc : Option Unit

/-- Unsigned LEB128 varint encoding, structured with a fuel argument so
that it reduces definitionally; `n` itself always over-approximates the
number of 7-bit groups, so the fuel-exhausted branch is unreachable. -/
def writeVarintAux : Nat → Nat → List Nat
  | 0, n => [n % 128]
  | fuel + 1, n =>
      if n < 128 then [n]
      else (n % 128 + 128) :: writeVarintAux fuel (n / 128)

/-- Unsigned LEB128 varint encoding used by the protobuf wire format. -/
def writeVarint (n : Nat) : List Nat :=
  writeVarintAux (n + 1) n

/-- A write into the `Vec`-backed sink: appending bytes to a growable
buffer always succeeds, so this returns `ok` for every input; the
`Except` wrapper mirrors the `Result` plumbing of the writer API. -/
def vecWrite (buf : List Nat) (bs : List Nat) : Except EncodeError (List Nat) :=
  Except.ok (buf ++ bs)

/-- Modelled from the spec: `write_message` for the `TopicDescriptor`
envelope, following the protobuf wire layout. A populated `string` field
is written as its tag byte, the varint byte length, and the raw bytes;
the reserved fields, never populated by this core, would be written with
tags 18 and 26. -/
def TopicDescriptor.write_message (d : TopicDescriptor) :
    Except EncodeError (List Nat) := do
  let buf : List Nat := []
  let buf ← match d.name with
    | some s => vecWrite buf (writeVarint 10 ++ writeVarint s.length ++ s)
    | none => Except.ok buf
  let buf ← match d.auth with
    | some _ => vecWrite buf (writeVarint 18)
    | none => Except.ok buf
  let buf ← match d.enc with
    | some _ => vecWrite buf (writeVarint 26)
    | none => Except.ok buf
  Except.ok buf

/-- Reduction of a `Nat` to a 32-bit machine word value. -/
def w32 (n : Nat) : Nat :=
  n % 4294967296

/-- Right rotation of a 32-bit word by `k` positions. -/
def rotr32 (k x : Nat) : Nat :=
  w32 ((x >>> k) ||| (x <<< (32 - k)))

/-- SHA-256 choice function `Ch(x, y, z)`; the bitwise complement of a
32-bit word is its xor with the all-ones word. -/
def shaCh (x y z : Nat) : Nat :=
  (x &&& y) ^^^ ((x ^^^ 4294967295) &&& z)

/-- SHA-256 majority function `Maj(x, y, z)`. -/
def shaMaj (x y z : Nat) : Nat :=
  (x &&& y) ^^^ (x &&& z) ^^^ (y &&& z)

/-- SHA-256 big sigma 0. -/
def bigSigma0 (x : Nat) : Nat :=
  rotr32 2 x ^^^ rotr32 13 x ^^^ rotr32 22 x

/-- SHA-256 big sigma 1. -/
def bigSigma1 (x : Nat) : Nat :=
  rotr32 6 x ^^^ rotr32 11 x ^^^ rotr32 25 x

/-- SHA-256 small sigma 0. -/
def smallSigma0 (x : Nat) : Nat :=
  rotr32 7 x ^^^ rotr32 18 x ^^^ (x >>> 3)

/-- SHA-256 small sigma 1. -/
def smallSigma1 (x : Nat) : Nat :=
  rotr32 17 x ^^^ rotr32 19 x ^^^ (x >>> 10)

/-- The eight-word SHA-256 working state. -/
structure Hash8 where
  a : Nat
  b : Nat
  c : Nat
  d : Nat
  e : Nat
  f : Nat
  g : Nat
  h : Nat
deriving DecidableEq, Repr

/-- The SHA-256 initial hash values (FIPS 180-4 §5.3.3), written in
decimal. -/
def shaInitHash : Hash8 :=
  ⟨1779033703, 3144134277, 1013904242, 2773480762,
   1359893119, 2600822924, 528734635, 1541459225⟩

/-- The 64 SHA-256 round constants (FIPS 180-4 §4.2.2), written in
decimal. -/
def sha256K : List Nat :=
  [1116352408, 1899447441, 3049323471, 3921009573, 961987163,
   1508970993, 2453635748, 2870763221, 3624381080, 310598401,
   607225278, 1426881987, 1925078388, 2162078206, 2614888103,
   3248222580, 3835390401, 4022224774, 264347078, 604807628,
   770255983, 1249150122, 1555081692, 1996064986, 2554220882,
   2821834349, 2952996808, 3210313671, 3336571891, 3584528711,
   113926993, 338241895, 666307205, 773529912, 1294757372,
   1396182291, 1695183700, 1986661051, 2177026350, 2456956037,
   2730485921, 2820302411, 3259730800, 3345764771, 3516065817,
   3600352804, 4094571909, 275423344, 430227734, 506948616,
   659060556, 883997877, 958139571, 1322822218, 1537002063,
   1747873779, 1955562222, 2024104815, 2227730452, 2361852424,
   2428436474, 2756734187, 3204031479, 3329325298]

/-- Big-endian serialization of `n` to exactly `k` bytes. -/
def beBytes (k n : Nat) : List Nat :=
  match k with
  | 0 => []
  | j + 1 => ((n >>> (8 * j)) % 256) :: beBytes j n

/-- SHA-256 message padding (FIPS 180-4 §5.1.1): append `0x80`, zero-pad
to 56 bytes modulo 64, then the 64-bit big-endian bit length. -/
def shaPad (msg : List Nat) : List Nat :=
  msg ++ 128 :: (List.replicate ((119 - msg.length % 64) % 64) 0 ++ beBytes 8 (msg.length * 8))

/-- Splitting into 64-byte blocks, structured with a fuel argument so
that it reduces definitionally; the list length over-approximates the
number of blocks, so the fuel-exhausted branch is unreachable. -/
def toBlocksAux : Nat → List Nat → List (List Nat)
  | 0, _ => []
  | fuel + 1, l =>
      if l = [] then []
      else l.take 64 :: toBlocksAux fuel (l.drop 64)

/-- Split a padded message into 64-byte blocks. -/
def toBlocks (l : List Nat) : List (List Nat) :=
  toBlocksAux l.length l

/-- Assemble bytes into big-endian 32-bit words. -/
def toWords : List Nat → List Nat
  | b0 :: b1 :: b2 :: b3 :: rest =>
      ((b0 <<< 24) ||| (b1 <<< 16) ||| (b2 <<< 8) ||| b3) :: toWords rest
  | _ => []

/-- Extend the 16-word message schedule by `k` further words
(FIPS 180-4 §6.2.2 step 1). -/
def scheduleExtend (w : List Nat) : Nat → List Nat
  | 0 => w
  | j + 1 =>
      let i := w.length
      let wi := w32 (smallSigma1 (w.getD (i - 2) 0) + w.getD (i - 7) 0 +
        smallSigma0 (w.getD (i - 15) 0) + w.getD (i - 16) 0)
      scheduleExtend (w ++ [wi]) j

/-- One SHA-256 compression round; `kw` is the wrapped sum of the round
constant and the schedule word. -/
def shaRound (s : Hash8) (kw : Nat) : Hash8 :=
  let t1 := w32 (s.h + bigSigma1 s.e + shaCh s.e s.f s.g + kw)
  let t2 := w32 (bigSigma0 s.a + shaMaj s.a s.b s.c)
  ⟨w32 (t1 + t2), s.a, s.b, s.c, w32 (s.d + t1), s.e, s.f, s.g⟩

/-- Compress one 64-byte block into the running state
(FIPS 180-4 §6.2.2). -/
def compressBlock (s : Hash8) (block : List Nat) : Hash8 :=
  let w := scheduleExtend (toWords block) 48
  let kws := List.zipWith (fun ki wi => w32 (ki + wi)) sha256K w
  let t := kws.foldl shaRound s
  ⟨w32 (s.a + t.a), w32 (s.b + t.b), w32 (s.c + t.c), w32 (s.d + t.d),
   w32 (s.e + t.e), w32 (s.f + t.f), w32 (s.g + t.g), w32 (s.h + t.h)⟩

/-- SHA-256 of a byte sequence, as the 32-byte digest. -/
def sha256 (msg : List Nat) : List Nat :=
  let fin := (toBlocks (shaPad msg)).foldl compressBlock shaInitHash
  beBytes 4 fin.a ++ beBytes 4 fin.b ++ beBytes 4 fin.c ++ beBytes 4 fin.d ++
  beBytes 4 fin.e ++ beBytes 4 fin.f ++ beBytes 4 fin.g ++ beBytes 4 fin.h

/-- The standard base64 alphabet as a function from a 6-bit value to its
ASCII code (A-Z, a-z, 0-9, plus, slash). -/
def b64Char (n : Nat) : Nat :=
  if n < 26 then 65 + n
  else if n < 52 then 71 + n
  else if n < 62 then n - 4
  else if n = 62 then 43
  else 47

/-- Standard padded base64 encoding of a byte sequence, as the ASCII byte
sequence of the encoding (61 is the pad character). -/
def base64Encode : List Nat → List Nat
  | [] => []
  | [b1] => [b64Char (b1 >>> 2), b64Char ((b1 &&& 3) <<< 4), 61, 61]
  | [b1, b2] => [b64Char (b1 >>> 2), b64Char (((b1 &&& 3) <<< 4) ||| (b2 >>> 4)),
      b64Char ((b2 &&& 15) <<< 2), 61]
  | b1 :: b2 :: b3 :: rest =>
      b64Char (b1 >>> 2) :: b64Char (((b1 &&& 3) <<< 4) ||| (b2 >>> 4)) ::
      b64Char (((b2 &&& 15) <<< 2) ||| (b3 >>> 6)) :: b64Char (b3 &&& 63) ::
      base64Encode rest

/-- The `Sha256Hash` strategy type (a unit struct). -/
structure Sha256Hash

/-- `Sha256Hash::hash` from `topic.rs`: wrap the topic string in a
`TopicDescriptor` envelope, protobuf-encode it, SHA-256 the bytes and
base64-encode the digest. The error branch is the `expect` panic of the
source on an encoding failure; it is proved unreachable below. -/
def Sha256Hash.hash (topic_string : RustString) : TopicHash :=
  let topic_descripter : TopicDescriptor := ⟨some topic_string, none, none⟩
  match topic_descripter.write_message with
  | Except.ok bytes => ⟨base64Encode (sha256 bytes)⟩
  | Except.error _ => ⟨[]⟩

/-- The `Hasher` trait of `topic.rs`: a strategy for turning a topic
string into a topic hash. -/
class Hasher (H : Type) where
  hash : RustString → TopicHash

instance : Hasher IdentityHash :=
  ⟨IdentityHash.hash⟩

instance : Hasher Sha256Hash :=
  ⟨Sha256Hash.hash⟩

/-- The `Topic` struct of `topic.rs`, generic over a hasher strategy `H`
(the `phantom_data` field is the type parameter itself). -/
structure Topic (H : Type) [Hasher H] where
  topic : RustString

/-- `Topic::new`: bind a topic string to the strategy `H`. -/
def Topic.new {H : Type} [Hasher H] (topic : RustString) : Topic H :=
  ⟨topic⟩

/-- `Topic::hash`: delegate to the bound strategy. -/
def Topic.hash {H : Type} [Hasher H] (t : Topic H) : TopicHash :=
  Hasher.hash (H := H) t.topic

/-- The `From` conversion from `Topic` to `TopicHash`, which calls
`topic.hash()`. -/
def TopicHash.fromTopic {H : Type} [Hasher H] (t : Topic H) : TopicHash :=
  t.hash

/-- `Display` for `Topic` prints the `topic` field (the original name,
not the derived key). -/
def Topic.displayString {H : Type} [Hasher H] (t : Topic H) : RustString :=
  t.topic

/-- The UTF-8 bytes of the string "chat". -/
def chatBytes : RustString :=
  [99, 104, 97, 116]

/-- The UTF-8 bytes of the string "Chat". -/
def chatUpperBytes : RustString :=
  [67, 104, 97, 116]

/-- The envelope encoding of a populated name field reduces to the tag
byte, the varint length and the raw bytes, wrapped in `ok`. -/
theorem write_message_eq_ok (s : RustString) :
    TopicDescriptor.write_message ⟨some s, none, none⟩ =
      Except.ok (writeVarint 10 ++ writeVarint s.length ++ s) := rfl

/-- `Sha256Hash::hash` never reaches its error branch and equals the
base64 of the SHA-256 of the envelope bytes. -/
theorem sha256Hash_hash_eq (s : RustString) :
    Sha256Hash.hash s =
      ⟨base64Encode (sha256 (writeVarint 10 ++ writeVarint s.length ++ s))⟩ := rfl

/-- Big-endian serialization to `k` bytes yields exactly `k` bytes. -/
theorem length_beBytes (k n : Nat) : (beBytes k n).length = k := by
  induction k generalizing n with
  | zero => rfl
  | succ j ih => simp [beBytes, ih]

/-- A SHA-256 digest is exactly 32 bytes, whatever the message. -/
theorem length_sha256 (msg : List Nat) : (sha256 msg).length = 32 := by
  simp [sha256, length_beBytes]

/-- Padded base64 produces four output characters per three-byte group,
the last group rounded up. -/
theorem length_base64Encode : ∀ l : List Nat,
    (base64Encode l).length = (l.length + 2) / 3 * 4
  | [] => rfl
  | [_] => by simp [base64Encode]
  | [_, _] => by simp [base64Encode]
  | _ :: _ :: _ :: rest => by
      have ih := length_base64Encode rest
      simp [base64Encode, ih]
      omega

/-- The boolean byte-lexicographic comparison agrees with the
lexicographic order relation on byte lists. -/
theorem bytesLt_iff_lex : ∀ x y : RustString,
    bytesLt x y = true ↔ List.Lex (· < ·) x y
  | [], [] => by
      simp only [bytesLt, Bool.false_eq_true, false_iff]
      intro h
      cases h
  | [], _ :: _ => by
      simp only [bytesLt, true_iff]
      exact List.Lex.nil
  | _ :: _, [] => by
      simp only [bytesLt, Bool.false_eq_true, false_iff]
      intro h
      cases h
  | x :: xs, y :: ys => by
      have ih := bytesLt_iff_lex xs ys
      by_cases h1 : x < y
      · simp only [bytesLt, h1, if_true, true_iff]
        exact List.Lex.rel h1
      · by_cases h2 : y < x
        · simp only [bytesLt, h1, if_false, h2, if_true, Bool.false_eq_true, false_iff]
          intro h
          cases h with
          | cons htail => omega
          | rel hrel => exact absurd hrel h1
        · have hxy : x = y := le_antisymm (Nat.not_lt.mp h2) (Nat.not_lt.mp h1)
          subst hxy
          simp only [bytesLt, h1, if_false, ih]
          constructor
          · exact fun h => List.Lex.cons h
          · intro h
            cases h with
            | cons htail => exact htail
            | rel hrel => exact absurd hrel (lt_irrefl x)

/-- C1: for every string `s` and each of the two strategy variants,
deriving a key from `s` twice yields equal `TopicHash` values: both hash
functions are deterministic. -/
theorem derive_deterministic (s : RustString) :
    IdentityHash.hash s = IdentityHash.hash s ∧
    Sha256Hash.hash s = Sha256Hash.hash s :=
  ⟨rfl, rfl⟩

/-- C2: the transparent strategy is the identity on strings: the string
read back from `IdentityHash::hash s` is exactly `s`. -/
theorem identity_hash_transparent (s : RustString) :
    (IdentityHash.hash s).into_string = s := rfl

/-- C3: for every input string, the string inside `Sha256Hash::hash` has
length exactly 44, the padded base64 length of a 32-byte digest. -/
theorem sha256_hash_length_44 (s : RustString) :
    (Sha256Hash.hash s).into_string.length = 44 := by
  rw [sha256Hash_hash_eq]
  show (base64Encode (sha256 (writeVarint 10 ++ writeVarint s.length ++ s))).length = 44
  rw [length_base64Encode, length_sha256]

/-- C4: reconstructing a key from its string projection reproduces an
equal value: `from_raw (k.into_string) = k`. -/
theorem from_raw_into_string_roundtrip (k : TopicHash) :
    TopicHash.from_raw k.into_string = k := rfl

/-- C5: `from_raw a = from_raw b` exactly when `a = b`, and the derived
strict order on `TopicHash` is exactly the lexicographic order of the
underlying byte strings. -/
theorem topicHash_eq_and_order_lex (x y : RustString) :
    (TopicHash.from_raw x = TopicHash.from_raw y ↔ x = y) ∧
    (TopicHash.lt (TopicHash.from_raw x) (TopicHash.from_raw y) = true ↔
      List.Lex (· < ·) x y) := by
  constructor
  · constructor
    · intro h
      exact congrArg TopicHash.into_string h
    · intro h
      rw [h]
  · exact bytesLt_iff_lex x y

/-- C6: the canonical protobuf encoding of the `TopicDescriptor`
envelope succeeds for every name string, so the `expect` panic branch of
`Sha256Hash::hash` is unreachable. -/
theorem write_message_never_fails (s : RustString) :
    (TopicDescriptor.write_message ⟨some s, none, none⟩).isOk = true := rfl

/-- The concrete derived key of "chat": the ASCII bytes of the base64
string "vnMHo9XjLj+XSZzQ73SDAi6cvjCVJjM/LJcnpHi6CCk=", obtained by
kernel evaluation of the envelope, SHA-256 and base64 pipeline. -/
theorem sha256Hash_chat_value :
    Sha256Hash.hash chatBytes =
      ⟨[118, 110, 77, 72, 111, 57, 88, 106, 76, 106, 43, 88, 83, 90, 122, 81,
        55, 51, 83, 68, 65, 105, 54, 99, 118, 106, 67, 86, 74, 106, 77, 47,
        76, 74, 99, 110, 112, 72, 105, 54, 67, 67, 107, 61]⟩ := by
  decide

/-- The concrete derived key of "Chat": the ASCII bytes of the base64
string "jR7QgLv8Dej0e9zlmRmVslZ3Mp0APtDf4MLyvtZQRhc=", obtained by
kernel evaluation of the envelope, SHA-256 and base64 pipeline. -/
theorem sha256Hash_chatUpper_value :
    Sha256Hash.hash chatUpperBytes =
      ⟨[106, 82, 55, 81, 103, 76, 118, 56, 68, 101, 106, 48, 101, 57, 122, 108,
        109, 82, 109, 86, 115, 108, 90, 51, 77, 112, 48, 65, 80, 116, 68, 102,
        52, 77, 76, 121, 118, 116, 90, 81, 82, 104, 99, 61]⟩ := by
  decide

/-- C8: case sensitivity is preserved: the keys of "chat" and "Chat"
under the cryptographic strategy are unequal; the two explicit key
values above already differ at their first byte (118 versus 106). -/
theorem sha256_hash_case_sensitive :
    Sha256Hash.hash chatBytes ≠ Sha256Hash.hash chatUpperBytes := by
  rw [sha256Hash_chat_value, sha256Hash_chatUpper_value]
  decide

/-- C9: for every topic built with any hasher strategy `H`, the display
projection returns the original name, not the derived key. -/
theorem topic_display_returns_name (H : Type) [Hasher H] (n : RustString) :
    (Topic.new n : Topic H).displayString = n := rfl

/-- C9 witness: a `Sha256Hash` topic named "chat" displays as "chat". -/
theorem topic_display_returns_name_witness :
    (Topic.new chatBytes : Topic Sha256Hash).displayString = chatBytes :=
  topic_display_returns_name Sha256Hash chatBytes

/-- C10: the `From` conversion from a topic to a topic hash agrees with
calling `hash` on the topic, for every strategy. -/
theorem topicHash_fromTopic_eq_hash (H : Type) [Hasher H] (t : Topic H) :
    TopicHash.fromTopic t = t.hash := rfl

/-- C10 witness: the conversion agrees with `hash` on a concrete
`Sha256Hash` topic. -/
theorem topicHash_fromTopic_eq_hash_witness :
    TopicHash.fromTopic (Topic.new chatBytes : Topic Sha256Hash) =
      (Topic.new chatBytes : Topic Sha256Hash).hash :=
  topicHash_fromTopic_eq_hash Sha256Hash (Topic.new chatBytes)
